import Mathlib

/-!
Verification development for `scd_qa_core.py`, a form-driven SCD QA
test-case prompt generator.  The Python source is shallowly embedded:
the two f-string prompt builders become Lean string-concatenation
functions (an f-string is exactly the concatenation of its literal
chunks and its interpolated fields, in order), the Databricks request
construction and response extraction become pure functions over a small
response model, and the generate branch of the Streamlit app becomes a
function from the collected form fields and the outcome of the LLM call
to a rendered display value.
-/

namespace SCDQA

/-- The build-time constant naming the Databricks serving endpoint
(`MODEL_ENDPOINT_NAME` in the source, line 12). -/
def MODEL_ENDPOINT_NAME : String := "deepseek-scd-qa"

/-- Substring containment: `sub` occurs verbatim inside `hay`
(its character list is an infix of the haystack's character list). -/
def containsStr (hay sub : String) : Prop := sub.data <:+: hay.data

/-- Left-to-right concatenation of a list of string pieces; an f-string
evaluates to exactly this over its literal chunks and interpolations. -/
def concatAll : List String → String
  | [] => ""
  | p :: rest => p ++ concatAll rest

/-- Embedding of `build_scd_type1_prompt` (`scd_qa_core.py` lines
46-77): the f-string, written as the ordered concatenation of its
literal chunks and the five interpolated fields.  Literal chunks are
split so that each phrase the specification names stands as its own
piece; the concatenation is byte-for-byte the Python template (checked
by `build_scd_type1_prompt_eq` below). -/
def build_scd_type1_prompt (source_table target_table business_keys
    attribute_columns additional_rules : String) : String :=
  concatAll
    [ "\nYou are a ",
      "senior Data QA Engineer",
      ".\n\nGenerate detailed QA test cases to validate a Slowly Changing Dimension Type 1 (SCD1)\nload between the following tables.\n\nSource table: ",
      source_table,
      "\nTarget table: ",
      target_table,
      "\nBusiness key columns: ",
      business_keys,
      "\nAttribute columns (overwritten on change): ",
      attribute_columns,
      "\n\nAdditional rules:\n",
      additional_rules,
      "\n\nRequirements:\n- Assume SCD1 implemented in PySpark + Delta on Databricks.\n- Generate ",
      "10–15",
      " test cases.\n- Include positive + negative scenarios.\n- Include:\n  • ",
      "Initial load",
      "\n  • ",
      "Incremental load",
      "\n  • ",
      "Updates",
      "\n  • ",
      "No-change rows",
      "\n  • ",
      "Duplicate keys",
      "\n  • ",
      "Nulls",
      "\n  • ",
      "Data type issues",
      "\n\nOutput format (markdown table):\n\n",
      "| Test Case ID | Scenario | Preconditions | Input Data Setup | Steps | Expected Result |",
      "\n" ]

/-- Embedding of `build_scd_type2_prompt` (`scd_qa_core.py` lines
80-127), in the same piece-list style; byte-fidelity to the Python
template is checked by `build_scd_type2_prompt_eq` below. -/
def build_scd_type2_prompt (source_table target_table business_keys
    attribute_columns eff_from_col eff_to_col current_flag_col
    version_col additional_rules : String) : String :=
  concatAll
    [ "\nYou are a ",
      "senior Data QA Engineer",
      ".\n\nGenerate detailed QA test cases to validate an SCD Type 2 load.\n\nSource: ",
      source_table,
      "\nTarget: ",
      target_table,
      "\nBusiness Keys: ",
      business_keys,
      "\nTracked Columns: ",
      attribute_columns,
      "\n\nSCD2 Metadata:\n- Effective From: ",
      eff_from_col,
      "\n- Effective To: ",
      eff_to_col,
      "\n- Current Flag: ",
      current_flag_col,
      "\n- Version Column: ",
      version_col,
      "\n\nAdditional Rules:\n",
      additional_rules,
      "\n\nRequirements:\n- Assume PySpark + Delta Lake on Databricks\n- Generate ",
      "12–18",
      " cases\n- Cover:\n  • ",
      "Initial load",
      "\n  • ",
      "First insert",
      "\n  • ",
      "Attribute change -> close old + open new",
      "\n  • ",
      "Multiple historical changes",
      "\n  • ",
      "Late-arriving data",
      "\n  • ",
      "Overlapping ranges",
      "\n  • ",
      "Current flag issues",
      "\n  • ",
      "Duplicate keys",
      "\n  • ",
      "Invalid effective dates",
      "\n\nOutput format (markdown table):\n\n",
      "| Test Case ID | Scenario | Preconditions | Input Data Setup | Steps | Expected Result |",
      "\n" ]

set_option maxRecDepth 4000 in
/-- Sanity check that the chunked concatenation reproduces the Python
Type 1 template verbatim: evaluating it at five marker strings yields
the monolithic template with the markers substituted at the
interpolation sites. -/
theorem build_scd_type1_prompt_eq :
    build_scd_type1_prompt "@S" "@T" "@K" "@A" "@R" =
    "\nYou are a senior Data QA Engineer.\n\nGenerate detailed QA test cases to validate a Slowly Changing Dimension Type 1 (SCD1)\nload between the following tables.\n\nSource table: @S\nTarget table: @T\nBusiness key columns: @K\nAttribute columns (overwritten on change): @A\n\nAdditional rules:\n@R\n\nRequirements:\n- Assume SCD1 implemented in PySpark + Delta on Databricks.\n- Generate 10–15 test cases.\n- Include positive + negative scenarios.\n- Include:\n  • Initial load\n  • Incremental load\n  • Updates\n  • No-change rows\n  • Duplicate keys\n  • Nulls\n  • Data type issues\n\nOutput format (markdown table):\n\n| Test Case ID | Scenario | Preconditions | Input Data Setup | Steps | Expected Result |\n" := by
  rfl

set_option maxRecDepth 4000 in
/-- Sanity check that the chunked concatenation reproduces the Python
Type 2 template verbatim at nine marker strings. -/
theorem build_scd_type2_prompt_eq :
    build_scd_type2_prompt "@S" "@T" "@K" "@A" "@F" "@U" "@C" "@V" "@R" =
    "\nYou are a senior Data QA Engineer.\n\nGenerate detailed QA test cases to validate an SCD Type 2 load.\n\nSource: @S\nTarget: @T\nBusiness Keys: @K\nTracked Columns: @A\n\nSCD2 Metadata:\n- Effective From: @F\n- Effective To: @U\n- Current Flag: @C\n- Version Column: @V\n\nAdditional Rules:\n@R\n\nRequirements:\n- Assume PySpark + Delta Lake on Databricks\n- Generate 12–18 cases\n- Cover:\n  • Initial load\n  • First insert\n  • Attribute change -> close old + open new\n  • Multiple historical changes\n  • Late-arriving data\n  • Overlapping ranges\n  • Current flag issues\n  • Duplicate keys\n  • Invalid effective dates\n\nOutput format (markdown table):\n\n| Test Case ID | Scenario | Preconditions | Input Data Setup | Steps | Expected Result |\n" := by
  rfl

/-- A list is an infix of itself followed by anything. -/
theorem infix_head (l l₂ : List Char) : l <:+: l ++ l₂ :=
  ⟨[], l₂, by simp⟩

/-- Prepending material on the left preserves infixes. -/
theorem infix_skip (l₁ : List Char) {l l₂ : List Char} (h : l <:+: l₂) :
    l <:+: l₁ ++ l₂ := by
  obtain ⟨a, b, hab⟩ := h
  exact ⟨l₁ ++ a, b, by rw [← hab]; simp⟩

/-- The length of a concatenation is the sum of the piece lengths. -/
theorem concatAll_length (l : List String) :
    (concatAll l).length = (l.map String.length).sum := by
  induction l with
  | nil => rfl
  | cons p rest ih => simp [concatAll, String.length_append, ih]

/-- Every piece of a concatenation occurs verbatim in the result. -/
theorem contains_of_mem {pieces : List String} {sub : String}
    (h : sub ∈ pieces) : containsStr (concatAll pieces) sub := by
  induction pieces with
  | nil => cases h
  | cons p rest ih =>
    rcases List.mem_cons.mp h with hp | hrest
    · subst hp
      exact infix_head _ _
    · exact infix_skip p.data (ih hrest)

/-- A single chat-style message of the serving-endpoint request payload
(one element of the `inputs` list built at lines 30-33). -/
structure ChatMessage where
  role : String
  content : String
  deriving DecidableEq

/-- Embedding of the request payload built by `call_databricks_llm`
(lines 30-33): the `inputs` argument of `w.serving_endpoints.query` is
the one-element list `[{"role": "user", "content": prompt}]`. -/
def llm_request_inputs (prompt : String) : List ChatMessage :=
  [⟨"user", prompt⟩]

/-- Model of the object returned by `w.serving_endpoints.query`.
`output_text = some t` means attribute extraction `response.output_text`
succeeds and yields `t`; `output_text = none` means the field is absent
or extraction raises (the bare `except:` of line 38 catches every
exception alike).  `fields_repr` carries the rendering of the object's
fields. -/
structure ServingResponse where
  output_text : Option String
  fields_repr : String
  deriving DecidableEq

/-- Modelled from the spec: the string rendering `str(response)` of the
raw response object, which the repository does not define (it is the
Python builtin applied to the SDK's dataclass response type, whose
rendering is the class name followed by its fields in parentheses). -/
def str_response (r : ServingResponse) : String :=
  "QueryEndpointResponse(" ++ r.fields_repr ++ ")"

/-- Embedding of the response handling of `call_databricks_llm` (lines
36-39): `try: return response.output_text / except: return
str(response)`. -/
def call_databricks_llm_extract (r : ServingResponse) : String :=
  match r.output_text with
  | some t => t
  | none => str_response r

/-- The form fields collected by `run_app` (lines 145-166).  The four
SCD-2 metadata columns are initialized to `""` at line 156 and only
overwritten from text inputs when the Type 2 variant is selected; here
the record carries whatever values they hold at generate time. -/
structure FormInput where
  source_table : String
  target_table : String
  business_keys : String
  attribute_columns : String
  additional_rules : String
  eff_from_col : String
  eff_to_col : String
  current_flag_col : String
  version_col : String
  deriving DecidableEq

/-- What the generate branch renders: `st.success`/`st.code` on the
success path, `st.error` on the exception path. -/
inductive Display where
  | success (body : String)
  | error (msg : String)
  deriving DecidableEq

/-- Embedding of the prompt selection of `run_app` (lines 174-184): the
Type 1 builder when the radio selection is `"SCD Type 1"`, else the
Type 2 builder with the four metadata columns. -/
def run_app_prompt (scd_type : String) (i : FormInput) : String :=
  if scd_type == "SCD Type 1" then
    build_scd_type1_prompt i.source_table i.target_table i.business_keys
      i.attribute_columns i.additional_rules
  else
    build_scd_type2_prompt i.source_table i.target_table i.business_keys
      i.attribute_columns i.eff_from_col i.eff_to_col i.current_flag_col
      i.version_col i.additional_rules

/-- Embedding of the generate branch of `run_app` (lines 171-192): the
prompt is built, `call_databricks_llm` is invoked on it (its outcome
modelled by the oracle `llm`, `Except.error e` standing for a raised
exception with description `e`), and either the result is rendered as a
success or the caught exception as the message string of line 192
(`st.error` applied to the f-string `"Error: " + str(e)`). -/
def run_app_generate (scd_type : String) (i : FormInput)
    (llm : String → Except String String) : Display :=
  match llm (run_app_prompt scd_type i) with
  | Except.ok result => Display.success result
  | Except.error e => Display.error ("Error: " ++ e)

/-- C1: for every input, the Type 1 prompt contains the source table
name, target table name, business-key string, and attribute-column
string verbatim as substrings, and contains each of the seven required
Type 1 scenario category names (in the code's spelling: Initial load,
Incremental load, Updates, No-change rows, Duplicate keys, Nulls, Data
type issues). -/
theorem type1_prompt_contains_fields_and_scenarios
    (source_table target_table business_keys attribute_columns
      additional_rules : String) :
    containsStr (build_scd_type1_prompt source_table target_table
        business_keys attribute_columns additional_rules) source_table ∧
    containsStr (build_scd_type1_prompt source_table target_table
        business_keys attribute_columns additional_rules) target_table ∧
    containsStr (build_scd_type1_prompt source_table target_table
        business_keys attribute_columns additional_rules) business_keys ∧
    containsStr (build_scd_type1_prompt source_table target_table
        business_keys attribute_columns additional_rules) attribute_columns ∧
    containsStr (build_scd_type1_prompt source_table target_table
        business_keys attribute_columns additional_rules) "Initial load" ∧
    containsStr (build_scd_type1_prompt source_table target_table
        business_keys attribute_columns additional_rules) "Incremental load" ∧
    containsStr (build_scd_type1_prompt source_table target_table
        business_keys attribute_columns additional_rules) "Updates" ∧
    containsStr (build_scd_type1_prompt source_table target_table
        business_keys attribute_columns additional_rules) "No-change rows" ∧
    containsStr (build_scd_type1_prompt source_table target_table
        business_keys attribute_columns additional_rules) "Duplicate keys" ∧
    containsStr (build_scd_type1_prompt source_table target_table
        business_keys attribute_columns additional_rules) "Nulls" ∧
    containsStr (build_scd_type1_prompt source_table target_table
        business_keys attribute_columns additional_rules) "Data type issues" := by
  refine ⟨?_, ?_, ?_, ?_, ?_, ?_, ?_, ?_, ?_, ?_, ?_⟩ <;>
    exact contains_of_mem (by simp [build_scd_type1_prompt])

/-- C2: for every input, the Type 2 prompt contains the source table
name, target table name, business-key string, attribute-column string,
and all four metadata column names verbatim as substrings, and contains
each of the nine required Type 2 scenario category names (in the code's
spelling: Initial load, First insert, Attribute change -> close old +
open new, Multiple historical changes, Late-arriving data, Overlapping
ranges, Current flag issues, Duplicate keys, Invalid effective dates). -/
theorem type2_prompt_contains_fields_and_scenarios
    (source_table target_table business_keys attribute_columns
      eff_from_col eff_to_col current_flag_col version_col
      additional_rules : String) :
    containsStr (build_scd_type2_prompt source_table target_table
        business_keys attribute_columns eff_from_col eff_to_col
        current_flag_col version_col additional_rules) source_table ∧
    containsStr (build_scd_type2_prompt source_table target_table
        business_keys attribute_columns eff_from_col eff_to_col
        current_flag_col version_col additional_rules) target_table ∧
    containsStr (build_scd_type2_prompt source_table target_table
        business_keys attribute_columns eff_from_col eff_to_col
        current_flag_col version_col additional_rules) business_keys ∧
    containsStr (build_scd_type2_prompt source_table target_table
        business_keys attribute_columns eff_from_col eff_to_col
        current_flag_col version_col additional_rules) attribute_columns ∧
    containsStr (build_scd_type2_prompt source_table target_table
        business_keys attribute_columns eff_from_col eff_to_col
        current_flag_col version_col additional_rules) eff_from_col ∧
    containsStr (build_scd_type2_prompt source_table target_table
        business_keys attribute_columns eff_from_col eff_to_col
        current_flag_col version_col additional_rules) eff_to_col ∧
    containsStr (build_scd_type2_prompt source_table target_table
        business_keys attribute_columns eff_from_col eff_to_col
        current_flag_col version_col additional_rules) current_flag_col ∧
    containsStr (build_scd_type2_prompt source_table target_table
        business_keys attribute_columns eff_from_col eff_to_col
        current_flag_col version_col additional_rules) version_col ∧
    containsStr (build_scd_type2_prompt source_table target_table
        business_keys attribute_columns eff_from_col eff_to_col
        current_flag_col version_col additional_rules) "Initial load" ∧
    containsStr (build_scd_type2_prompt source_table target_table
        business_keys attribute_columns eff_from_col eff_to_col
        current_flag_col version_col additional_rules) "First insert" ∧
    containsStr (build_scd_type2_prompt source_table target_table
        business_keys attribute_columns eff_from_col eff_to_col
        current_flag_col version_col additional_rules)
      "Attribute change -> close old + open new" ∧
    containsStr (build_scd_type2_prompt source_table target_table
        business_keys attribute_columns eff_from_col eff_to_col
        current_flag_col version_col additional_rules)
      "Multiple historical changes" ∧
    containsStr (build_scd_type2_prompt source_table target_table
        business_keys attribute_columns eff_from_col eff_to_col
        current_flag_col version_col additional_rules) "Late-arriving data" ∧
    containsStr (build_scd_type2_prompt source_table target_table
        business_keys attribute_columns eff_from_col eff_to_col
        current_flag_col version_col additional_rules) "Overlapping ranges" ∧
    containsStr (build_scd_type2_prompt source_table target_table
        business_keys attribute_columns eff_from_col eff_to_col
        current_flag_col version_col additional_rules) "Current flag issues" ∧
    containsStr (build_scd_type2_prompt source_table target_table
        business_keys attribute_columns eff_from_col eff_to_col
        current_flag_col version_col additional_rules) "Duplicate keys" ∧
    containsStr (build_scd_type2_prompt source_table target_table
        business_keys attribute_columns eff_from_col eff_to_col
        current_flag_col version_col additional_rules)
      "Invalid effective dates" := by
  refine ⟨?_, ?_, ?_, ?_, ?_, ?_, ?_, ?_, ?_, ?_, ?_, ?_, ?_, ?_, ?_, ?_, ?_⟩ <;>
    exact contains_of_mem (by simp [build_scd_type2_prompt])

/-- C3: for every input, the Type 1 prompt contains the literal
count-range string with an en dash requesting 10 to 15 test cases, and
the Type 2 prompt contains the literal range requesting 12 to 18
cases. -/
theorem prompts_contain_count_ranges
    (source_table target_table business_keys attribute_columns
      eff_from_col eff_to_col current_flag_col version_col
      additional_rules : String) :
    containsStr (build_scd_type1_prompt source_table target_table
        business_keys attribute_columns additional_rules) "10–15" ∧
    containsStr (build_scd_type2_prompt source_table target_table
        business_keys attribute_columns eff_from_col eff_to_col
        current_flag_col version_col additional_rules) "12–18" :=
  ⟨contains_of_mem (by simp [build_scd_type1_prompt]),
   contains_of_mem (by simp [build_scd_type2_prompt])⟩

/-- C4: both prompt builders are deterministic and side-effect-free.
Their Python bodies are single return expressions with no assignments or
calls, so they embed as pure Lean functions; two calls with identical
argument tuples yield byte-identical output strings. -/
theorem prompt_builders_deterministic
    (s t k a r s2 t2 k2 a2 r2 f u c v f2 u2 c2 v2 : String)
    (h1 : (s, t, k, a, r) = (s2, t2, k2, a2, r2))
    (h2 : (f, u, c, v) = (f2, u2, c2, v2)) :
    build_scd_type1_prompt s t k a r =
      build_scd_type1_prompt s2 t2 k2 a2 r2 ∧
    build_scd_type2_prompt s t k a f u c v r =
      build_scd_type2_prompt s2 t2 k2 a2 f2 u2 c2 v2 r2 := by
  simp only [Prod.mk.injEq] at h1 h2
  obtain ⟨hs, ht, hk, ha, hr⟩ := h1
  obtain ⟨hf, hu, hc, hv⟩ := h2
  subst hs; subst ht; subst hk; subst ha; subst hr
  subst hf; subst hu; subst hc; subst hv
  exact ⟨rfl, rfl⟩

/-- Witness for C4 at concrete arguments. -/
theorem prompt_builders_deterministic_witness :
    build_scd_type1_prompt "s" "t" "k" "a" "r" =
      build_scd_type1_prompt "s" "t" "k" "a" "r" ∧
    build_scd_type2_prompt "s" "t" "k" "a" "f" "u" "c" "v" "r" =
      build_scd_type2_prompt "s" "t" "k" "a" "f" "u" "c" "v" "r" :=
  prompt_builders_deterministic "s" "t" "k" "a" "r" "s" "t" "k" "a" "r"
    "f" "u" "c" "v" "f" "u" "c" "v" rfl rfl

/-- C5: every built prompt of either variant contains the role phrase
and the fixed markdown header row with the six column headers Test Case
ID, Scenario, Preconditions, Input Data Setup, Steps, Expected
Result. -/
theorem prompts_contain_role_and_table_header
    (s t k a r f u c v : String) :
    containsStr (build_scd_type1_prompt s t k a r)
      "senior Data QA Engineer" ∧
    containsStr (build_scd_type1_prompt s t k a r)
      "| Test Case ID | Scenario | Preconditions | Input Data Setup | Steps | Expected Result |" ∧
    containsStr (build_scd_type2_prompt s t k a f u c v r)
      "senior Data QA Engineer" ∧
    containsStr (build_scd_type2_prompt s t k a f u c v r)
      "| Test Case ID | Scenario | Preconditions | Input Data Setup | Steps | Expected Result |" := by
  refine ⟨?_, ?_, ?_, ?_⟩
  · exact contains_of_mem (by simp [build_scd_type1_prompt])
  · exact contains_of_mem (by simp [build_scd_type1_prompt])
  · exact contains_of_mem (by simp [build_scd_type2_prompt])
  · exact contains_of_mem (by simp [build_scd_type2_prompt])

/-- C6: when the response object lacks the expected `output_text` field
(equivalently, whenever extracting it raises, since the bare `except:`
catches every exception), `call_databricks_llm` returns the string
rendering of the entire raw response object, which is non-empty, and
the extraction itself never raises (it is a total function of the
response). -/
theorem llm_extract_fallback (r : ServingResponse)
    (h : r.output_text = none) :
    call_databricks_llm_extract r = str_response r ∧
    call_databricks_llm_extract r ≠ "" := by
  have h1 : call_databricks_llm_extract r = str_response r := by
    simp [call_databricks_llm_extract, h]
  refine ⟨h1, ?_⟩
  rw [h1]
  simp [str_response]
  intro hq
  have hd := congrArg String.data hq
  simp at hd

/-- Witness for C6 at a concrete field-less response. -/
theorem llm_extract_fallback_witness :
    call_databricks_llm_extract ⟨none, "predictions=None"⟩ =
      str_response ⟨none, "predictions=None"⟩ ∧
    call_databricks_llm_extract ⟨none, "predictions=None"⟩ ≠ "" :=
  llm_extract_fallback ⟨none, "predictions=None"⟩ rfl

/-- C7: if the LLM call raises on the generate branch, `run_app`
catches the exception and renders an error display whose message
contains the exception's description; no exception propagates (the
branch is a total function of the outcome) and no success result is
rendered on this path. -/
theorem run_app_generate_error_path
    (scd_type : String) (i : FormInput)
    (llm : String → Except String String) (e : String)
    (h : llm (run_app_prompt scd_type i) = Except.error e) :
    run_app_generate scd_type i llm = Display.error ("Error: " ++ e) ∧
    containsStr ("Error: " ++ e) e ∧
    ∀ b, run_app_generate scd_type i llm ≠ Display.success b := by
  refine ⟨?_, ?_, ?_⟩
  · simp [run_app_generate, h]
  · exact infix_skip ("Error: ").data (List.infix_refl _)
  · intro b hb
    simp [run_app_generate, h] at hb

/-- Witness for C7: a transport error with message "connection refused"
is rendered as an error display containing that message, with no
success display. -/
theorem run_app_generate_error_path_witness :
    run_app_generate "SCD Type 1"
        ⟨"src_customer_dim", "dim_customer", "customer_id",
          "name,status,type", "", "", "", "", ""⟩
        (fun _ => Except.error "connection refused") =
      Display.error ("Error: " ++ "connection refused") ∧
    containsStr ("Error: " ++ "connection refused") "connection refused" ∧
    ∀ b, run_app_generate "SCD Type 1"
        ⟨"src_customer_dim", "dim_customer", "customer_id",
          "name,status,type", "", "", "", "", ""⟩
        (fun _ => Except.error "connection refused") ≠
      Display.success b :=
  run_app_generate_error_path "SCD Type 1"
    ⟨"src_customer_dim", "dim_customer", "customer_id",
      "name,status,type", "", "", "", "", ""⟩
    (fun _ => Except.error "connection refused") "connection refused" rfl

/-- C8: for every prompt string, the request payload sent to the
serving endpoint is a message list with exactly one entry, whose role
is "user" and whose content is the prompt unmodified. -/
theorem llm_request_single_user_message (prompt : String) :
    (llm_request_inputs prompt).length = 1 ∧
    ∀ m ∈ llm_request_inputs prompt,
      m.role = "user" ∧ m.content = prompt := by
  refine ⟨rfl, ?_⟩
  intro m hm
  simp [llm_request_inputs] at hm
  subst hm
  exact ⟨rfl, rfl⟩

/-- C9: both prompt builders are total over all string inputs (they are
functions defined on every tuple of strings, the empty string included)
and interpolate each field as-is: the output length is exactly the
template length (the output at all-empty fields) plus the lengths of
the fields, so no validation, escaping, or length limiting touches any
field. -/
theorem prompt_builders_total_length (s t k a r f u c v : String) :
    (build_scd_type1_prompt s t k a r).length =
      (build_scd_type1_prompt "" "" "" "" "").length +
        (s.length + t.length + k.length + a.length + r.length) ∧
    (build_scd_type2_prompt s t k a f u c v r).length =
      (build_scd_type2_prompt "" "" "" "" "" "" "" "" "").length +
        (s.length + t.length + k.length + a.length + f.length +
          u.length + c.length + v.length + r.length) := by
  constructor
  · simp [build_scd_type1_prompt, concatAll_length]
    omega
  · simp [build_scd_type2_prompt, concatAll_length]
    omega

/-- C10: the Type 1 flow is independent of the four SCD-2 metadata
column fields: two form inputs that agree on the five Type 1 fields
(and may differ arbitrarily in the metadata columns) produce identical
prompts under the Type 1 selection, since `build_scd_type1_prompt`
takes no metadata parameters and the Type 1 branch passes none. -/
theorem type1_prompt_ignores_scd2_metadata (i j : FormInput)
    (hs : i.source_table = j.source_table)
    (ht : i.target_table = j.target_table)
    (hk : i.business_keys = j.business_keys)
    (ha : i.attribute_columns = j.attribute_columns)
    (hr : i.additional_rules = j.additional_rules) :
    run_app_prompt "SCD Type 1" i = run_app_prompt "SCD Type 1" j := by
  simp [run_app_prompt, hs, ht, hk, ha, hr]

/-- Witness for C10: two concrete inputs differing in all four metadata
columns yield the same Type 1 prompt. -/
theorem type1_prompt_ignores_scd2_metadata_witness :
    run_app_prompt "SCD Type 1"
      ⟨"src_customer_dim", "dim_customer", "customer_id",
        "name,status,type", "", "eff_from_dt", "eff_to_dt",
        "is_current", "version_num"⟩ =
    run_app_prompt "SCD Type 1"
      ⟨"src_customer_dim", "dim_customer", "customer_id",
        "name,status,type", "", "", "", "", ""⟩ :=
  type1_prompt_ignores_scd2_metadata
    ⟨"src_customer_dim", "dim_customer", "customer_id",
      "name,status,type", "", "eff_from_dt", "eff_to_dt",
      "is_current", "version_num"⟩
    ⟨"src_customer_dim", "dim_customer", "customer_id",
      "name,status,type", "", "", "", "", ""⟩
    rfl rfl rfl rfl rfl

end SCDQA
